import Mathlib

/-!
Verification of the nikkansports-converter repository: a shallow embedding of
the text extraction module (src/word_reader.py), the conversion gateway
(src/converter.py), and the session workflow, upload boundary and credential
store (app.py), together with theorems settling the stated behavioural
claims. External collaborators — the text codecs, the docx container parser,
the generation service, and the SHA-256 digest — are modelled as parameters,
since their implementations live outside this repository.
-/

namespace NikkanConverter

/-- Byte sequences are modelled as lists of byte values. -/
abbrev Bytes := List Nat

/-- The python str.strip() operation: remove leading and trailing whitespace
from the character sequence of the string. -/
def py_strip (s : String) : String :=
  ⟨((s.data.dropWhile Char.isWhitespace).reverse.dropWhile Char.isWhitespace).reverse⟩

/-- Text codecs used by the plain-text path of extract_text_only.
The UTF-8 and Shift-JIS decoders are fallible (a failed decode raises
UnicodeDecodeError in the source, modelled as none); the CP932 decoder
invoked with errors ignore drops undecodable byte sequences and always
returns a string, so it is total. -/
structure Codecs where
  utf8 : Bytes → Option String
  shift_jis : Bytes → Option String
  cp932_ignore : Bytes → String

/-- One paragraph of a structured (docx) document as exposed by the container
parser; extract_text_only only consumes the visible text. -/
structure Paragraph where
  text : String
deriving DecidableEq

/-- The docx container parser (the external python-docx Document constructor):
returns the paragraph list in document order, or fails (raises) on a
malformed container, modelled as none. -/
structure DocxParser where
  parse : Bytes → Option (List Paragraph)

/-- Embedding of extract_text_only (src/word_reader.py, lines 48-81). For
file_type "txt": try UTF-8, then Shift-JIS, then CP932 with errors ignore.
For every other file_type: parse as a docx container, strip each paragraph,
keep the non-empty ones, and join them with a double line break. A parse
failure on the docx path propagates (none). -/
def extract_text_only (c : Codecs) (dp : DocxParser)
    (file_bytes : Bytes) (file_type : String) : Option String :=
  if file_type = "txt" then
    match c.utf8 file_bytes with
    | some s => some s
    | none =>
      match c.shift_jis file_bytes with
      | some s => some s
      | none => some (c.cp932_ignore file_bytes)
  else
    match dp.parse file_bytes with
    | none => none
    | some paras =>
        some (String.intercalate "\n\n"
          ((paras.map (fun p => py_strip p.text)).filter (fun t => t != "")))

/-- The python str.endswith test, as a suffix test on the character
sequence of the string. -/
def str_endswith (s suffix : String) : Bool :=
  suffix.data.isSuffixOf s.data

/-- Embedding of the upload boundary in app.py (lines 312-316 and 510-514):
the declared file type is "txt" exactly when the uploaded file name ends
with ".txt", and "docx" otherwise, whatever the actual content. -/
def upload_file_type (filename : String) : String :=
  if str_endswith filename ".txt" then "txt" else "docx"

/-- File-system view of the two prompt template resources read by
src/converter.py: whether each file exists and its contents when it does. -/
structure PromptFS where
  conversion_exists : Bool
  conversion_contents : String
  qa_exists : Bool
  qa_contents : String

/-- Embedding of load_conversion_prompt (src/converter.py, lines 12-18):
returns the file contents when prompts/conversion_prompt.txt exists and the
empty string otherwise — absence is not an error. -/
def load_conversion_prompt (fs : PromptFS) : String :=
  if fs.conversion_exists then fs.conversion_contents else ""

/-- Embedding of load_qa_prompt (src/converter.py, lines 21-27). -/
def load_qa_prompt (fs : PromptFS) : String :=
  if fs.qa_exists then fs.qa_contents else ""

/-- Outcome of one call to the external generation service: the returned
text, or a raised exception carrying a message. -/
inductive ApiOutcome where
  | ok (text : String)
  | err (msg : String)
deriving DecidableEq

/-- Result dictionary of convert_to_markdown and revise_markdown:
success flag, markdown payload, error message. -/
structure MarkdownResult where
  success : Bool
  markdown : Option String
  error : Option String
deriving DecidableEq

/-- Result dictionary of convert_to_qa and revise_qa. -/
structure QaResult where
  success : Bool
  qa_text : Option String
  error : Option String
deriving DecidableEq

/-- Result dictionary of proofread_article and proofread_qa. -/
structure ProofreadResult where
  success : Bool
  report : Option String
  issues_count : Nat
  error : Option String
deriving DecidableEq

/-- The optional reporter-name instruction appended to the markdown
conversion prompt (src/converter.py, lines 48-50). -/
def md_reporter_instruction (reporter_name : String) : String :=
  if reporter_name != "" then
    "\n\n【記者名】\n記事末尾に「【" ++ reporter_name ++ "】」を配置してください。"
  else ""

/-- The single user-message content built by convert_to_markdown
(src/converter.py, lines 58-67). -/
def md_prompt (fs : PromptFS) (article_text reporter_name : String) : String :=
  "以下の変換ルールに従って、記事をマークダウン形式に変換してください。\n\n【変換ルール】\n"
    ++ load_conversion_prompt fs ++ "\n" ++ md_reporter_instruction reporter_name
    ++ "\n\n【変換する記事】\n" ++ article_text
    ++ "\n\n変換後のマークダウンのみを出力してください。説明は不要です。"

/-- Embedding of convert_to_markdown (src/converter.py, lines 30-83): one
call to the external service with the built prompt; success wraps the
returned text, any exception becomes success false with the message. -/
def convert_to_markdown (fs : PromptFS) (api : String → ApiOutcome)
    (article_text reporter_name : String) : MarkdownResult :=
  match api (md_prompt fs article_text reporter_name) with
  | .ok t => { success := true, markdown := some t, error := none }
  | .err m => { success := false, markdown := none, error := some m }

/-- The single user-message content built by convert_to_qa
(src/converter.py, lines 108-116). -/
def qa_prompt (fs : PromptFS) (article_text : String) : String :=
  "以下の変換ルールに従って、音声文字起こしを一問一答形式に変換してください。\n\n【変換ルール】\n"
    ++ load_qa_prompt fs
    ++ "\n\n【変換する文字起こし】\n" ++ article_text
    ++ "\n\n変換後の一問一答形式のみを出力してください。説明は不要です。"

/-- Embedding of convert_to_qa (src/converter.py, lines 86-132). -/
def convert_to_qa (fs : PromptFS) (api : String → ApiOutcome)
    (article_text : String) : QaResult :=
  match api (qa_prompt fs article_text) with
  | .ok t => { success := true, qa_text := some t, error := none }
  | .err m => { success := false, qa_text := none, error := some m }

/-- The single user-message content built by revise_markdown
(src/converter.py, lines 327-340). -/
def revise_md_prompt (markdown_text revision_request : String) : String :=
  "以下のマークダウン変換済み記事に対して、修正リクエストを適用してください。\n\n【現在の記事】\n"
    ++ markdown_text ++ "\n\n【修正リクエスト】\n" ++ revision_request
    ++ "\n\n【重要】\n- 修正リクエストに該当する箇所のみを修正\n- それ以外の部分は変更しない\n- 原稿本文の内容（発言内容など）は絶対に修正しない\n\n修正後の全文を出力してください。説明は不要です。"

/-- Embedding of revise_markdown (src/converter.py, lines 306-356). -/
def revise_markdown (api : String → ApiOutcome)
    (markdown_text revision_request : String) : MarkdownResult :=
  match api (revise_md_prompt markdown_text revision_request) with
  | .ok t => { success := true, markdown := some t, error := none }
  | .err m => { success := false, markdown := none, error := some m }

/-- The single user-message content built by revise_qa
(src/converter.py, lines 380-393). -/
def revise_qa_prompt (qa_text revision_request : String) : String :=
  "以下の一問一答変換済みテキストに対して、修正リクエストを適用してください。\n\n【現在のテキスト】\n"
    ++ qa_text ++ "\n\n【修正リクエスト】\n" ++ revision_request
    ++ "\n\n【重要】\n- 修正リクエストに該当する箇所のみを修正\n- それ以外の部分は変更しない\n- 回答部分の発言内容は絶対に修正しない\n\n修正後の全文を出力してください。説明は不要です。"

/-- Embedding of revise_qa (src/converter.py, lines 359-409). -/
def revise_qa (api : String → ApiOutcome)
    (qa_text revision_request : String) : QaResult :=
  match api (revise_qa_prompt qa_text revision_request) with
  | .ok t => { success := true, qa_text := some t, error := none }
  | .err m => { success := false, qa_text := none, error := some m }

/-- Embedding of hash_password (app.py, lines 62-63); the SHA-256 hex digest
itself is the external parameter H. -/
def hash_password (H : String → String) (password : String) : String :=
  H password

/-- Embedding of verify_password (app.py, lines 66-67). -/
def verify_password (H : String → String) (password hashed : String) : Bool :=
  hash_password H password == hashed

/-- One value of the users_db dictionary (display name, password hash,
role). -/
structure UserRecord where
  name : String
  password : String
  role : String
deriving DecidableEq

/-- The users_db dictionary: an insertion-ordered association list with
unique keys, as a python dict is. -/
abbrev UsersDb := List (String × UserRecord)

/-- Membership test, the python expression username in users. -/
def db_contains : UsersDb → String → Bool
  | [], _ => false
  | (k, _) :: rest, u => k == u || db_contains rest u

/-- Key lookup, the python expression users.get(username). -/
def db_lookup : UsersDb → String → Option UserRecord
  | [], _ => none
  | (k, r) :: rest, u => if k = u then some r else db_lookup rest u

/-- Dictionary assignment users.key = value: replaces the record in place
when the key is present, appends otherwise (python dict update order). -/
def db_set (users : UsersDb) (u : String) (r : UserRecord) : UsersDb :=
  if db_contains users u then
    users.map (fun p => if p.1 = u then (u, r) else p)
  else users ++ [(u, r)]

/-- Embedding of add_user (app.py, lines 76-83): stores the digest of the
password, silently overwriting any existing record for the username. -/
def add_user (H : String → String) (users : UsersDb)
    (username name password role : String) : UsersDb :=
  db_set users username
    { name := name, password := hash_password H password, role := role }

/-- Embedding of delete_user (app.py, lines 86-90): deletes only when the
username is present and is not the protected "admin" key. -/
def delete_user (users : UsersDb) (username : String) : UsersDb :=
  if db_contains users username && username != "admin" then
    users.filter (fun p => p.1 != username)
  else users

/-- The login check of login_page (app.py, lines 193-207): look the user up,
then compare the stored hash against the digest of the submitted password;
an absent user fails. -/
def check_login (H : String → String) (users : UsersDb)
    (username password : String) : Bool :=
  match db_lookup users username with
  | some r => verify_password H password r.password
  | none => false

/-- The per-session state keys touched by the two conversion sub-workflows
(app.py). A field holds none exactly when the key is absent from
st.session_state. -/
structure SessionState where
  markdown_result : Option String
  original_filename : Option String
  original_article : Option String
  revision_history : Option (List String)
  proofread_report : Option String
  qa_result : Option String
  qa_filename : Option String
  qa_revision_history : Option (List String)
  qa_proofread_report : Option String
  md_article_input : Option String
  qa_article_input : Option String
  md_reporter : Option String
  md_revision_input : Option String
  qa_revision_input : Option String
  widget_key : Option Nat
deriving DecidableEq

/-- A session with every tracked key absent. -/
def emptySession : SessionState :=
  ⟨none, none, none, none, none, none, none, none, none, none, none, none,
   none, none, none⟩

/-- Embedding of clear_workspace (app.py, lines 93-119): deletes every
artifact and input key of both sub-workflows, then increments widget_key,
reading an absent counter as 0. -/
def clear_workspace (s : SessionState) : SessionState :=
  { s with
    markdown_result := none
    qa_result := none
    original_filename := none
    original_article := none
    revision_history := none
    qa_revision_history := none
    proofread_report := none
    qa_proofread_report := none
    qa_filename := none
    md_article_input := none
    qa_article_input := none
    md_reporter := none
    md_revision_input := none
    qa_revision_input := none
    widget_key := some (s.widget_key.getD 0 + 1) }

/-- Embedding of the markdown convert handler (app.py, lines 339-383).
Pressing convert first resets revision_history to the empty list (line 340);
an input whose strip is empty only warns; a successful gateway result stores
the payload, file name, original article and an empty revision history, and
the proofread report is overwritten only when proofreading is enabled and
the proofread call succeeds — otherwise any previous report is retained.
A failed conversion leaves everything else unchanged. -/
def md_convert_step (s : SessionState) (article_text filename : String)
    (do_proofread : Bool) (result : MarkdownResult) (pr : ProofreadResult) :
    SessionState :=
  let s := { s with revision_history := some [] }
  if py_strip article_text == "" then s
  else if result.success then
    let s := { s with
      markdown_result := result.markdown
      original_filename := some filename
      original_article := some article_text
      revision_history := some ([] : List String) }
    if do_proofread && pr.success then
      { s with proofread_report := pr.report }
    else s
  else s

/-- Embedding of the qa convert handler (app.py, lines 533-575), the qa
counterpart of md_convert_step. -/
def qa_convert_step (s : SessionState) (article_text filename : String)
    (do_proofread : Bool) (result : QaResult) (pr : ProofreadResult) :
    SessionState :=
  let s := { s with qa_revision_history := some [] }
  if py_strip article_text == "" then s
  else if result.success then
    let s := { s with
      qa_result := result.qa_text
      qa_filename := some filename
      qa_revision_history := some ([] : List String) }
    if do_proofread && pr.success then
      { s with qa_proofread_report := pr.report }
    else s
  else s

/-- Embedding of the markdown revise handler (app.py, lines 414-439). The
handler is only rendered when markdown_result is present; an empty request
only warns; a successful gateway result appends the request to
revision_history (created as empty when absent) and replaces
markdown_result; a failure changes nothing. No other key is touched — in
particular proofread_report is not cleared. -/
def md_revise_step (s : SessionState) (revision_request : String)
    (revision_result : MarkdownResult) : SessionState :=
  if s.markdown_result.isNone then s
  else if py_strip revision_request == "" then s
  else if revision_result.success then
    { s with
      revision_history := some (s.revision_history.getD [] ++ [revision_request])
      markdown_result := revision_result.markdown }
  else s

/-- Embedding of the qa revise handler (app.py, lines 606-631), the qa
counterpart of md_revise_step. -/
def qa_revise_step (s : SessionState) (revision_request : String)
    (revision_result : QaResult) : SessionState :=
  if s.qa_result.isNone then s
  else if py_strip revision_request == "" then s
  else if revision_result.success then
    { s with
      qa_revision_history := some (s.qa_revision_history.getD [] ++ [revision_request])
      qa_result := revision_result.qa_text }
  else s

/-- Filtering the non-empty strings out of the stripped paragraph texts is
the same as stripping the paragraphs whose stripped text is non-empty, in
order. -/
theorem map_strip_filter_comm (l : List Paragraph) :
    (l.map (fun p => py_strip p.text)).filter (fun t => t != "") =
      (l.filter (fun p => py_strip p.text != "")).map (fun p => py_strip p.text) := by
  induction l with
  | nil => rfl
  | cons p rest ih =>
    simp only [List.map_cons, List.filter_cons]
    by_cases h : py_strip p.text = ""
    · simp [h, ih]
    · simp [h, ih]

/-- C1: on the plain-text path, extract_text_only returns the UTF-8 decoding
whenever UTF-8 decoding succeeds; the Shift-JIS decoding whenever UTF-8
fails and Shift-JIS succeeds; and the lossy CP932 fallback decoding when
both fail — so the decoders are tried in exactly that order and the
operation is total on plain-text inputs. -/
theorem extract_text_txt_decoder_chain (c : Codecs) (dp : DocxParser) (b : Bytes) :
    (∀ s, c.utf8 b = some s → extract_text_only c dp b "txt" = some s) ∧
    (∀ s, c.utf8 b = none → c.shift_jis b = some s →
        extract_text_only c dp b "txt" = some s) ∧
    (c.utf8 b = none → c.shift_jis b = none →
        extract_text_only c dp b "txt" = some (c.cp932_ignore b)) ∧
    (extract_text_only c dp b "txt").isSome = true := by
  refine ⟨fun s hu => ?_, fun s hu hs => ?_, fun hu hs => ?_, ?_⟩
  · simp [extract_text_only, hu]
  · simp [extract_text_only, hu, hs]
  · simp [extract_text_only, hu, hs]
  · cases hu : c.utf8 b with
    | some s => simp [extract_text_only, hu]
    | none =>
      cases hs : c.shift_jis b with
      | some s => simp [extract_text_only, hu, hs]
      | none => simp [extract_text_only, hu, hs]

/-- Witness for C1 at a concrete input: UTF-8 fails, Shift-JIS succeeds, and
extraction returns the Shift-JIS decoding. -/
theorem extract_text_txt_decoder_chain_witness :
    extract_text_only
      ⟨fun _ => none, fun _ => some "こんにちは", fun _ => ""⟩
      ⟨fun _ => none⟩ [16] "txt" = some "こんにちは" :=
  ((extract_text_txt_decoder_chain
      ⟨fun _ => none, fun _ => some "こんにちは", fun _ => ""⟩
      ⟨fun _ => none⟩ [16]).2.1) "こんにちは" rfl rfl

/-- C7: on the structured-document path, extraction returns exactly the
stripped texts of the paragraphs whose stripped text is non-empty, in
original document order, joined by a double line break, and every joined
segment is non-empty. -/
theorem extract_docx_joins_nonempty_paragraphs (c : Codecs) (dp : DocxParser)
    (b : Bytes) (ft : String) (paras : List Paragraph)
    (hft : ft ≠ "txt") (hp : dp.parse b = some paras) :
    extract_text_only c dp b ft =
      some (String.intercalate "\n\n"
        ((paras.filter (fun p => py_strip p.text != "")).map (fun p => py_strip p.text))) ∧
    ∀ t ∈ (paras.filter (fun p => py_strip p.text != "")).map (fun p => py_strip p.text),
      t ≠ "" := by
  constructor
  · simp [extract_text_only, hft, hp, map_strip_filter_comm]
  · intro t ht
    rcases List.mem_map.mp ht with ⟨p, hpmem, rfl⟩
    have hk := List.of_mem_filter hpmem
    simpa using hk

/-- Witness for C7 at a concrete document of three paragraphs, one of them
whitespace-only. -/
theorem extract_docx_joins_nonempty_paragraphs_witness :
    extract_text_only ⟨fun _ => some "", fun _ => none, fun _ => ""⟩
      ⟨fun _ => some [⟨" A "⟩, ⟨"  "⟩, ⟨"B"⟩]⟩ [0] "docx" =
      some (String.intercalate "\n\n"
        ((([⟨" A "⟩, ⟨"  "⟩, ⟨"B"⟩] : List Paragraph).filter
            (fun p => py_strip p.text != "")).map (fun p => py_strip p.text))) :=
  (extract_docx_joins_nonempty_paragraphs
    ⟨fun _ => some "", fun _ => none, fun _ => ""⟩
    ⟨fun _ => some [⟨" A "⟩, ⟨"  "⟩, ⟨"B"⟩]⟩ [0] "docx"
    [⟨" A "⟩, ⟨"  "⟩, ⟨"B"⟩] (by decide) rfl).1

/-- C10: the upload boundary declares "txt" exactly for file names ending in
".txt" and "docx" for every other name; every file_type other than "txt"
takes the structured-document path of extract_text_only, where a container
parse failure propagates as a failure instead of falling back to text
decoding. -/
theorem non_txt_files_take_docx_path (c : Codecs) (dp : DocxParser)
    (b : Bytes) (ft filename : String) :
    (str_endswith filename ".txt" = false → upload_file_type filename = "docx") ∧
    (str_endswith filename ".txt" = true → upload_file_type filename = "txt") ∧
    (ft ≠ "txt" → dp.parse b = none → extract_text_only c dp b ft = none) ∧
    (ft ≠ "txt" → ∀ paras, dp.parse b = some paras →
      extract_text_only c dp b ft =
        some (String.intercalate "\n\n"
          ((paras.map (fun p => py_strip p.text)).filter (fun t => t != "")))) := by
  refine ⟨fun h => ?_, fun h => ?_, fun hft hp => ?_, fun hft paras hp => ?_⟩
  · simp [upload_file_type, h]
  · simp [upload_file_type, h]
  · simp [extract_text_only, hft, hp]
  · simp [extract_text_only, hft, hp]

/-- Witness for C10: a .pdf upload is declared "docx", and a byte sequence
the container parser rejects makes extraction fail rather than fall back. -/
theorem non_txt_files_take_docx_path_witness :
    upload_file_type "report.pdf" = "docx" ∧
    extract_text_only ⟨fun _ => some "text", fun _ => none, fun _ => ""⟩
      ⟨fun _ => none⟩ [1, 2] "docx" = none :=
  ⟨(non_txt_files_take_docx_path
      ⟨fun _ => some "text", fun _ => none, fun _ => ""⟩
      ⟨fun _ => none⟩ [1, 2] "docx" "report.pdf").1 (by decide),
   (non_txt_files_take_docx_path
      ⟨fun _ => some "text", fun _ => none, fun _ => ""⟩
      ⟨fun _ => none⟩ [1, 2] "docx" "report.pdf").2.2.1 (by decide) rfl⟩

/-- Removing every entry of a non-admin key does not change whether the
store contains the admin key. -/
theorem db_contains_filter_ne (users : UsersDb) (u : String) (hu : u ≠ "admin") :
    db_contains (users.filter (fun p => p.1 != u)) "admin" =
      db_contains users "admin" := by
  induction users with
  | nil => rfl
  | cons p rest ih =>
    by_cases h : p.1 = u
    · have h2 : p.1 ≠ "admin" := by rw [h]; exact hu
      simp [db_contains, List.filter_cons, h, h2, hu, ih]
    · simp [db_contains, List.filter_cons, h, ih]

/-- A single delete_user call does not change whether the store contains the
admin key. -/
theorem delete_user_contains_admin (users : UsersDb) (u : String) :
    db_contains (delete_user users u) "admin" = db_contains users "admin" := by
  unfold delete_user
  by_cases h : (db_contains users u && u != "admin") = true
  · rw [if_pos h]
    have hu : u ≠ "admin" := by
      have h2 := ((Bool.and_eq_true _ _).mp h).2
      simpa using h2
    exact db_contains_filter_ne users u hu
  · rw [if_neg h]

/-- Any sequence of delete_user calls does not change whether the store
contains the admin key. -/
theorem foldl_delete_user_contains_admin (names : List String) (users : UsersDb) :
    db_contains (names.foldl delete_user users) "admin" =
      db_contains users "admin" := by
  induction names generalizing users with
  | nil => rfl
  | cons nm rest ih =>
    simp only [List.foldl_cons]
    rw [ih, delete_user_contains_admin]

/-- C5: delete_user never removes the protected admin record — deleting
"admin" is the identity, deleting an absent username is the identity, and no
sequence of delete_user calls can make the admin key disappear. -/
theorem delete_user_admin_protected (users : UsersDb) (u : String)
    (names : List String) :
    delete_user users "admin" = users ∧
    (db_contains users u = false → delete_user users u = users) ∧
    (db_contains users "admin" = true →
      db_contains (names.foldl delete_user users) "admin" = true) := by
  refine ⟨?_, fun h => ?_, fun h => ?_⟩
  · simp [delete_user]
  · simp [delete_user, h]
  · rw [foldl_delete_user_contains_admin]; exact h

/-- Witness for C5: a store seeded with the admin record still contains the
admin key after deleting "admin", then a missing user, then "admin" again. -/
theorem delete_user_admin_protected_witness :
    db_contains
      ((["admin", "ghost", "admin"] : List String).foldl delete_user
        [("admin", ⟨"管理者", "hash", "admin"⟩)]) "admin" = true :=
  (delete_user_admin_protected [("admin", ⟨"管理者", "hash", "admin"⟩)] "ghost"
    ["admin", "ghost", "admin"]).2.2 (by decide)

/-- Updating an existing key in place leaves the looked-up record equal to
the new record. -/
theorem db_lookup_map_set (users : UsersDb) (u : String) (r : UserRecord) :
    db_contains users u = true →
    db_lookup (users.map (fun p => if p.1 = u then (u, r) else p)) u = some r := by
  induction users with
  | nil => intro h; simp [db_contains] at h
  | cons p rest ih =>
    intro h
    by_cases hk : p.1 = u
    · simp only [List.map_cons, if_pos hk]
      simp [db_lookup]
    · have h2 : db_contains rest u = true := by
        simpa [db_contains, hk] using h
      simp only [List.map_cons, if_neg hk]
      simpa [db_lookup, hk] using ih h2

/-- Appending a fresh key makes the looked-up record equal to the new
record. -/
theorem db_lookup_append_fresh (users : UsersDb) (u : String) (r : UserRecord) :
    db_contains users u = false →
    db_lookup (users ++ [(u, r)]) u = some r := by
  induction users with
  | nil => intro _; simp [db_lookup]
  | cons p rest ih =>
    intro h
    have hk : p.1 ≠ u := by
      intro hh
      simp [db_contains, hh] at h
    have h2 : db_contains rest u = false := by
      simpa [db_contains, hk] using h
    simpa [db_lookup, hk] using ih h2

/-- Dictionary assignment always makes the key map to the assigned record,
whether it was present before (silent overwrite) or not. -/
theorem db_lookup_set (users : UsersDb) (u : String) (r : UserRecord) :
    db_lookup (db_set users u r) u = some r := by
  unfold db_set
  by_cases h : db_contains users u = true
  · rw [if_pos h]; exact db_lookup_map_set users u r h
  · rw [if_neg h]
    exact db_lookup_append_fresh users u r (by
      cases hc : db_contains users u
      · rfl
      · exact absurd hc h)

/-- C9: after add_user, the store maps the username to the record holding
the one-way digest of the password (never the plaintext), overwriting any
previous record silently; login verification succeeds on the same password
and fails on the extended password whenever the digest separates the two. -/
theorem add_user_then_verify (H : String → String) (users : UsersDb)
    (u n p r : String) :
    db_lookup (add_user H users u n p r) u = some ⟨n, H p, r⟩ ∧
    check_login H (add_user H users u n p r) u p = true ∧
    (H (p ++ "x") ≠ H p →
      check_login H (add_user H users u n p r) u (p ++ "x") = false) := by
  have hl : db_lookup (add_user H users u n p r) u = some ⟨n, H p, r⟩ :=
    db_lookup_set users u ⟨n, H p, r⟩
  refine ⟨hl, ?_, fun hx => ?_⟩
  · simp [check_login, hl, verify_password, hash_password]
  · simp [check_login, hl, verify_password, hash_password, hx]

/-- Witness for C9 with an injective concrete digest: login with the stored
password succeeds and login with the extended password fails. -/
theorem add_user_then_verify_witness :
    check_login (fun s => "#" ++ s)
      (add_user (fun s => "#" ++ s) [] "tanaka" "田中" "pw" "user")
      "tanaka" ("pw" ++ "x") = false :=
  (add_user_then_verify (fun s => "#" ++ s) [] "tanaka" "田中" "pw" "user").2.2
    (by decide)

/-- C8: clear_workspace removes the conversion result, proofread report and
revision history of the sub-workflows (together with every other tracked
artifact and input key) and increments the generation counter by exactly 1,
reading an absent counter as 0. -/
theorem clear_workspace_resets (s : SessionState) :
    (clear_workspace s).markdown_result = none ∧
    (clear_workspace s).proofread_report = none ∧
    (clear_workspace s).revision_history = none ∧
    (clear_workspace s).qa_result = none ∧
    (clear_workspace s).qa_proofread_report = none ∧
    (clear_workspace s).qa_revision_history = none ∧
    (clear_workspace s).widget_key = some (s.widget_key.getD 0 + 1) := by
  simp [clear_workspace]

/-- Counterexample to C2: starting from a state holding a conversion result,
an empty revision history and a proofread report, a successful revise with a
non-empty request appends the request and replaces the result — but the
existing proofread report is still present afterwards, not cleared. -/
theorem revise_retains_proofread_report :
    ((md_revise_step
        { emptySession with
            markdown_result := some "old"
            revision_history := some []
            proofread_report := some "stale report" }
        "fix the heading" ⟨true, some "new", none⟩).proofread_report,
     (md_revise_step
        { emptySession with
            markdown_result := some "old"
            revision_history := some []
            proofread_report := some "stale report" }
        "fix the heading" ⟨true, some "new", none⟩).markdown_result,
     (md_revise_step
        { emptySession with
            markdown_result := some "old"
            revision_history := some []
            proofread_report := some "stale report" }
        "fix the heading" ⟨true, some "new", none⟩).revision_history)
      = (some "stale report", some "new", some ["fix the heading"]) := by
  decide

/-- C2 amended: in either sub-workflow, a successful revise with a non-empty
request appends exactly that request to the revision history (created empty
when absent) and replaces the conversion result with the revise output,
leaving every other key — the proofread report included — unchanged; a
failed revise leaves the whole state unchanged. -/
theorem revise_step_transition (s : SessionState) (req : String)
    (mres : MarkdownResult) (qres : QaResult) :
    (s.markdown_result.isSome = true → py_strip req ≠ "" → mres.success = true →
      md_revise_step s req mres =
        { s with
            revision_history := some (s.revision_history.getD [] ++ [req])
            markdown_result := mres.markdown }) ∧
    (s.markdown_result.isSome = true → py_strip req ≠ "" → mres.success = false →
      md_revise_step s req mres = s) ∧
    (s.qa_result.isSome = true → py_strip req ≠ "" → qres.success = true →
      qa_revise_step s req qres =
        { s with
            qa_revision_history := some (s.qa_revision_history.getD [] ++ [req])
            qa_result := qres.qa_text }) ∧
    (s.qa_result.isSome = true → py_strip req ≠ "" → qres.success = false →
      qa_revise_step s req qres = s) := by
  refine ⟨fun hm hr hs => ?_, fun hm hr hs => ?_,
          fun hm hr hs => ?_, fun hm hr hs => ?_⟩
  · have h1 : s.markdown_result.isNone = false := by
      cases h : s.markdown_result <;> simp [h] at hm ⊢
    simp [md_revise_step, h1, hr, hs]
  · have h1 : s.markdown_result.isNone = false := by
      cases h : s.markdown_result <;> simp [h] at hm ⊢
    simp [md_revise_step, h1, hr, hs]
  · have h1 : s.qa_result.isNone = false := by
      cases h : s.qa_result <;> simp [h] at hm ⊢
    simp [qa_revise_step, h1, hr, hs]
  · have h1 : s.qa_result.isNone = false := by
      cases h : s.qa_result <;> simp [h] at hm ⊢
    simp [qa_revise_step, h1, hr, hs]

/-- Witness for the amended C2 at a concrete state and request. -/
theorem revise_step_transition_witness :
    md_revise_step { emptySession with markdown_result := some "old" }
        "fix" ⟨true, some "new", none⟩ =
      { emptySession with
          markdown_result := some "new"
          revision_history := some ["fix"] } :=
  (revise_step_transition { emptySession with markdown_result := some "old" }
    "fix" ⟨true, some "new", none⟩ ⟨true, some "q", none⟩).1 rfl (by decide) rfl

/-- Counterexample to C3: with proofreading disabled, a new successful
conversion stores the new result but keeps the previous proofread report,
which then refers to a conversion result that no longer exists. -/
theorem convert_retains_stale_proofread :
    ((md_convert_step
        { emptySession with
            markdown_result := some "old"
            proofread_report := some "stale report" }
        "fresh text" "f" false ⟨true, some "new", none⟩
        ⟨false, none, 0, none⟩).proofread_report,
     (md_convert_step
        { emptySession with
            markdown_result := some "old"
            proofread_report := some "stale report" }
        "fresh text" "f" false ⟨true, some "new", none⟩
        ⟨false, none, 0, none⟩).markdown_result)
      = (some "stale report", some "new") := by
  decide

/-- C3 amended: in either sub-workflow, a new successful base conversion
resets the revision history to empty and replaces the conversion result
(so at most one conversion result and at most one proofread report are held
per workflow, the session keys being single-valued); the previous proofread
report is replaced only when proofreading is enabled and the proofread call
succeeds, and is otherwise retained. -/
theorem convert_step_transition (s : SessionState) (article filename : String)
    (dp : Bool) (mres : MarkdownResult) (qres : QaResult) (pr : ProofreadResult) :
    (py_strip article ≠ "" → mres.success = true →
      md_convert_step s article filename dp mres pr =
        { s with
            markdown_result := mres.markdown
            original_filename := some filename
            original_article := some article
            revision_history := some []
            proofread_report :=
              if dp && pr.success then pr.report else s.proofread_report }) ∧
    (py_strip article ≠ "" → qres.success = true →
      qa_convert_step s article filename dp qres pr =
        { s with
            qa_result := qres.qa_text
            qa_filename := some filename
            qa_revision_history := some []
            qa_proofread_report :=
              if dp && pr.success then pr.report else s.qa_proofread_report }) := by
  refine ⟨fun hr hs => ?_, fun hr hs => ?_⟩
  · by_cases hpp : (dp && pr.success) = true <;>
      simp [md_convert_step, hr, hs, hpp]
  · by_cases hpp : (dp && pr.success) = true <;>
      simp [qa_convert_step, hr, hs, hpp]

/-- Witness for the amended C3: a successful conversion with proofreading
disabled stores the new artifacts and leaves the (absent) report absent. -/
theorem convert_step_transition_witness :
    md_convert_step emptySession "body" "f" false ⟨true, some "md", none⟩
        ⟨true, some "rep", 0, none⟩ =
      { emptySession with
          markdown_result := some "md"
          original_filename := some "f"
          original_article := some "body"
          revision_history := some [] } :=
  (convert_step_transition emptySession "body" "f" false ⟨true, some "md", none⟩
    ⟨true, some "q", none⟩ ⟨true, some "rep", 0, none⟩).1 (by decide) rfl

/-- Counterexample to C4: with the template resource absent,
load_conversion_prompt returns the empty string — it does not fail — and a
conversion whose external call succeeds returns success true with a payload,
instead of propagating a template failure as a conversion error. -/
theorem missing_template_not_an_error :
    load_conversion_prompt ⟨false, "RULES", false, ""⟩ = "" ∧
    convert_to_markdown ⟨false, "RULES", false, ""⟩ (fun _ => .ok "converted")
        "body" "" = ⟨true, some "converted", none⟩ :=
  ⟨rfl, rfl⟩

/-- C4 amended: absence of the template resource is not an error — the load
operation returns the empty string and conversion proceeds with an empty
rules section, its outcome determined solely by the external call: it
succeeds exactly when the external call returns text and fails exactly when
the external call raises. -/
theorem missing_template_amended (fs : PromptFS) (api : String → ApiOutcome)
    (article reporter : String) :
    (fs.conversion_exists = false → load_conversion_prompt fs = "") ∧
    (∀ t, api (md_prompt fs article reporter) = .ok t →
      convert_to_markdown fs api article reporter = ⟨true, some t, none⟩) ∧
    (∀ m, api (md_prompt fs article reporter) = .err m →
      convert_to_markdown fs api article reporter = ⟨false, none, some m⟩) := by
  refine ⟨fun h => ?_, fun t ht => ?_, fun m hm => ?_⟩
  · simp [load_conversion_prompt, h]
  · simp [convert_to_markdown, ht]
  · simp [convert_to_markdown, hm]

/-- Witness for the amended C4 at a concrete absent-template store. -/
theorem missing_template_amended_witness :
    load_conversion_prompt ⟨false, "X", true, "Y"⟩ = "" :=
  (missing_template_amended ⟨false, "X", true, "Y"⟩ (fun _ => .ok "o") "a" "r").1 rfl

/-- C6: each gateway operation builds its result from the single outcome of
its one external call — the result for any service that agrees on that one
prompt is the same — and any raised error becomes success false with the
message and no payload, while a returned text becomes success true with the
payload and no error; exactly one of payload and error is populated in every
returned result. -/
theorem gateway_result_exclusive (fs : PromptFS) (api api2 : String → ApiOutcome)
    (text req reporter : String) :
    (((convert_to_markdown fs api text reporter).success = true →
        (convert_to_markdown fs api text reporter).markdown.isSome = true ∧
        (convert_to_markdown fs api text reporter).error = none) ∧
     ((convert_to_markdown fs api text reporter).success = false →
        (convert_to_markdown fs api text reporter).markdown = none ∧
        (convert_to_markdown fs api text reporter).error.isSome = true) ∧
     (∀ m, api (md_prompt fs text reporter) = .err m →
        convert_to_markdown fs api text reporter = ⟨false, none, some m⟩) ∧
     (∀ t, api (md_prompt fs text reporter) = .ok t →
        convert_to_markdown fs api text reporter = ⟨true, some t, none⟩) ∧
     (api2 (md_prompt fs text reporter) = api (md_prompt fs text reporter) →
        convert_to_markdown fs api2 text reporter =
          convert_to_markdown fs api text reporter)) ∧
    (((convert_to_qa fs api text).success = true →
        (convert_to_qa fs api text).qa_text.isSome = true ∧
        (convert_to_qa fs api text).error = none) ∧
     ((convert_to_qa fs api text).success = false →
        (convert_to_qa fs api text).qa_text = none ∧
        (convert_to_qa fs api text).error.isSome = true) ∧
     (∀ m, api (qa_prompt fs text) = .err m →
        convert_to_qa fs api text = ⟨false, none, some m⟩) ∧
     (∀ t, api (qa_prompt fs text) = .ok t →
        convert_to_qa fs api text = ⟨true, some t, none⟩) ∧
     (api2 (qa_prompt fs text) = api (qa_prompt fs text) →
        convert_to_qa fs api2 text = convert_to_qa fs api text)) ∧
    (((revise_markdown api text req).success = true →
        (revise_markdown api text req).markdown.isSome = true ∧
        (revise_markdown api text req).error = none) ∧
     ((revise_markdown api text req).success = false →
        (revise_markdown api text req).markdown = none ∧
        (revise_markdown api text req).error.isSome = true) ∧
     (∀ m, api (revise_md_prompt text req) = .err m →
        revise_markdown api text req = ⟨false, none, some m⟩) ∧
     (∀ t, api (revise_md_prompt text req) = .ok t →
        revise_markdown api text req = ⟨true, some t, none⟩) ∧
     (api2 (revise_md_prompt text req) = api (revise_md_prompt text req) →
        revise_markdown api2 text req = revise_markdown api text req)) ∧
    (((revise_qa api text req).success = true →
        (revise_qa api text req).qa_text.isSome = true ∧
        (revise_qa api text req).error = none) ∧
     ((revise_qa api text req).success = false →
        (revise_qa api text req).qa_text = none ∧
        (revise_qa api text req).error.isSome = true) ∧
     (∀ m, api (revise_qa_prompt text req) = .err m →
        revise_qa api text req = ⟨false, none, some m⟩) ∧
     (∀ t, api (revise_qa_prompt text req) = .ok t →
        revise_qa api text req = ⟨true, some t, none⟩) ∧
     (api2 (revise_qa_prompt text req) = api (revise_qa_prompt text req) →
        revise_qa api2 text req = revise_qa api text req)) := by
  refine ⟨?_, ?_, ?_, ?_⟩
  · cases h : api (md_prompt fs text reporter) with
    | ok t =>
      exact ⟨by simp [convert_to_markdown, h], by simp [convert_to_markdown, h],
              by simp [convert_to_markdown, h], by simp [convert_to_markdown, h],
              fun hag => by simp [convert_to_markdown, hag, h]⟩
    | err m =>
      exact ⟨by simp [convert_to_markdown, h], by simp [convert_to_markdown, h],
              by simp [convert_to_markdown, h], by simp [convert_to_markdown, h],
              fun hag => by simp [convert_to_markdown, hag, h]⟩
  · cases h : api (qa_prompt fs text) with
    | ok t =>
      exact ⟨by simp [convert_to_qa, h], by simp [convert_to_qa, h],
              by simp [convert_to_qa, h], by simp [convert_to_qa, h],
              fun hag => by simp [convert_to_qa, hag, h]⟩
    | err m =>
      exact ⟨by simp [convert_to_qa, h], by simp [convert_to_qa, h],
              by simp [convert_to_qa, h], by simp [convert_to_qa, h],
              fun hag => by simp [convert_to_qa, hag, h]⟩
  · cases h : api (revise_md_prompt text req) with
    | ok t =>
      exact ⟨by simp [revise_markdown, h], by simp [revise_markdown, h],
              by simp [revise_markdown, h], by simp [revise_markdown, h],
              fun hag => by simp [revise_markdown, hag, h]⟩
    | err m =>
      exact ⟨by simp [revise_markdown, h], by simp [revise_markdown, h],
              by simp [revise_markdown, h], by simp [revise_markdown, h],
              fun hag => by simp [revise_markdown, hag, h]⟩
  · cases h : api (revise_qa_prompt text req) with
    | ok t =>
      exact ⟨by simp [revise_qa, h], by simp [revise_qa, h],
              by simp [revise_qa, h], by simp [revise_qa, h],
              fun hag => by simp [revise_qa, hag, h]⟩
    | err m =>
      exact ⟨by simp [revise_qa, h], by simp [revise_qa, h],
              by simp [revise_qa, h], by simp [revise_qa, h],
              fun hag => by simp [revise_qa, hag, h]⟩

/-- Witness for C6: a raising external call makes convert_to_markdown return
the error record with no payload. -/
theorem gateway_result_exclusive_witness :
    convert_to_markdown ⟨true, "R", true, "Q"⟩ (fun _ => .err "boom") "t" "n" =
      ⟨false, none, some "boom"⟩ :=
  ((gateway_result_exclusive ⟨true, "R", true, "Q"⟩ (fun _ => .err "boom")
      (fun _ => .err "boom") "t" "r" "n").1.2.2.1) "boom" rfl

end NikkanConverter
